import Mathlib

/-!
# Verification of the Transcriber pipeline

A shallow embedding in Lean 4 of the Transcriber repository's core:
configuration loading and saving (`app/config.py`), the engine factory
(`engine/__init__.py`), the faster-whisper engine's text assembly
(`engine/faster_whisper.py`), media preparation (`media/audio.py`),
text output (`output/text.py`), and the orchestration paths
(`app/cli.py` `run`, `app/menu.py` `_run_transcription`).

External effects (the filesystem, the ffmpeg subprocess, the inference
library) are modelled explicitly: the filesystem as an association list
of paths, the environment-dependent outcomes (ffmpeg on PATH, ffmpeg
exit status, inference library installed, model load success, emitted
segments) as parameters of an environment record.  Python strings are
Lean `String`s; Python `str.strip`, `str.lower` and truthiness-based
`or` are given faithful counterparts below.
-/

namespace Transcriber

/-- Characters removed by Python `str.strip()` (ASCII whitespace). -/
def pyIsSpace (c : Char) : Bool :=
  c = ' ' || c = '\t' || c = '\n' || c = '\r' || c = '\x0b' || c = '\x0c'

/-- Python `s.strip()`: drop leading and trailing whitespace. -/
def pyStrip (s : String) : String :=
  String.mk (((s.data.dropWhile pyIsSpace).reverse.dropWhile pyIsSpace).reverse)

/-- Python `s.lower()` (ASCII case folding, as used on ASCII config values). -/
def pyLower (s : String) : String :=
  String.mk (s.data.map Char.toLower)

/-- Python `override or default` for `Optional[str]` values: `None` and the
empty string are falsy and select the default. -/
def pyOr (o : Option String) (d : String) : String :=
  match o with
  | none => d
  | some s => if s = "" then d else s

/-- Python `repr` of a string, as produced by an `!r` format field
(faithful for strings without quotes, backslashes or control characters). -/
def pyRepr (s : String) : String :=
  "\x27" ++ s ++ "\x27"

/-- Whether `sub` occurs as a contiguous sublist. -/
def listContainsSub (sub : List Char) : List Char → Bool
  | [] => sub.isEmpty
  | c :: rest => List.isPrefixOf sub (c :: rest) || listContainsSub sub rest

/-- Whether `pat` occurs as a contiguous substring of `s`. -/
def strContains (s pat : String) : Bool :=
  listContainsSub pat.data s.data

/-! ## Configuration data model (`app/config.py`) -/

/-- Structure `EngineConfig`: configuration for the transcription engine. -/
structure EngineConfig where
  backend : String := "faster-whisper"
  model : String := "small"
  device : String := "cpu"
deriving DecidableEq, Repr

/-- Structure `OutputConfig`: configuration for text output. -/
structure OutputConfig where
  extension : String := "txt"
deriving DecidableEq, Repr

/-- Structure `AppConfig`: top-level application configuration. -/
structure AppConfig where
  engine : EngineConfig := {}
  output : OutputConfig := {}
deriving DecidableEq, Repr

/-- A parsed TOML value as `tomllib.load` would deliver it: a string, a
table, or some other (non-string, non-table) value. -/
inductive TomlV where
  | str (v : String)
  | table (kvs : List (String × TomlV))
  | other

/-- Python `raw.get(key)` on a parsed TOML table. -/
def rawGet (raw : List (String × TomlV)) (key : String) : Option TomlV :=
  (raw.find? (fun kv => kv.1 == key)).map (fun kv => kv.2)

/-- The Python exception types the program raises or catches, with their
messages.  `unsupportedMedia`, `ffmpegNotFound` and `ffmpegFailed` are the
`MediaError` subtypes of `media/audio.py`. -/
inductive PyErr where
  | unsupportedMedia (msg : String)
  | ffmpegNotFound (msg : String)
  | ffmpegFailed (msg : String)
  | moduleNotFound (msg : String)
  | valueError (msg : String)
  | runtimeError (msg : String)
deriving DecidableEq, Repr

/-- Helper `_get_table(raw, key)`: missing key yields the empty table; a
non-table value is a `ValueError`. -/
def _get_table (raw : List (String × TomlV)) (key : String) :
    Except PyErr (List (String × TomlV)) :=
  match rawGet raw key with
  | none => .ok []
  | some (.table t) => .ok t
  | some _ => .error (.valueError ("Invalid config: [" ++ key ++ "] must be a table."))

/-- Helper `_get_str(raw, key, default)`: missing key yields the default; a string
value is stripped and must be non-empty; anything else is a `ValueError`. -/
def _get_str (raw : List (String × TomlV)) (key : String) (default : String) :
    Except PyErr String :=
  match rawGet raw key with
  | none => .ok default
  | some (.str v) =>
    if pyStrip v = "" then
      .error (.valueError ("Invalid config: " ++ key ++ " must be a non-empty string."))
    else
      .ok (pyStrip v)
  | some _ => .error (.valueError ("Invalid config: " ++ key ++ " must be a non-empty string."))

/-- Function `load_config`: `none` models an absent config file (defaults apply);
`some raw` models the parsed TOML content of an existing file.  Field
order follows the source: engine table, output table, backend, model,
device, then the extension check. -/
def load_config (raw? : Option (List (String × TomlV))) : Except PyErr AppConfig :=
  match raw? with
  | none => .ok {}
  | some raw =>
    match _get_table raw "engine" with
    | .error e => .error e
    | .ok engineRaw =>
      match _get_table raw "output" with
      | .error e => .error e
      | .ok outputRaw =>
        match _get_str engineRaw "backend" "faster-whisper" with
        | .error e => .error e
        | .ok backend =>
          match _get_str engineRaw "model" "small" with
          | .error e => .error e
          | .ok model =>
            match _get_str engineRaw "device" "cpu" with
            | .error e => .error e
            | .ok device =>
              match _get_str outputRaw "extension" "txt" with
              | .error e => .error e
              | .ok extension =>
                if pyLower extension ≠ "txt" then
                  .error (.valueError "Only plain text output is supported: set [output].extension = \x27txt\x27.")
                else
                  .ok { engine := { backend := backend, model := model, device := device },
                        output := { extension := "txt" } }

/-- Serializer `_to_toml(config)`: the exact TOML text written by `save_config`.
Note that the engine `backend` field is never serialized. -/
def _to_toml (config : AppConfig) : String :=
  "[engine]\n" ++
  "model = \"" ++ config.engine.model ++ "\"\n" ++
  "device = \"" ++ config.engine.device ++ "\"\n" ++
  "\n" ++
  "[output]\n" ++
  "extension = \"txt\"\n"

/-- The parsed form of the text `_to_toml` produces, i.e. what
`tomllib.load` returns on it.  Faithful whenever `model` and `device`
satisfy `tomlSafe`: `_to_toml` performs no escaping, so a double quote
or backslash would change the parse, and a character a TOML basic
string forbids unescaped (the control characters, line breaks
included) would make `tomllib.load` raise `TOMLDecodeError` instead of
producing this table. -/
def _to_toml_parsed (config : AppConfig) : List (String × TomlV) :=
  [("engine", .table [("model", .str config.engine.model),
                      ("device", .str config.engine.device)]),
   ("output", .table [("extension", .str "txt")])]

/-- Strings that `_to_toml` embeds in a basic string without changing
their parsed value: no double quote (34), no backslash (92), and no
character a TOML basic string forbids unescaped — the control
characters U+0000 to U+0008 and U+000B to U+001F (line breaks
included) and U+007F; horizontal tab (9) is permitted. -/
def tomlSafe (s : String) : Bool :=
  s.data.all (fun c => c.toNat ≠ 34 && c.toNat ≠ 92 && c.toNat ≠ 127 &&
    (c.toNat ≥ 32 || c.toNat = 9))

/-- Function `save_config`: validates the output extension, then writes
`_to_toml config`; the result is the parsed content of the written file
(path handling and directory creation are not modelled). -/
def save_config (config : AppConfig) : Except PyErr (List (String × TomlV)) :=
  if pyLower config.output.extension ≠ "txt" then
    .error (.valueError "Only plain text output is supported: set [output].extension = \x27txt\x27.")
  else
    .ok (_to_toml_parsed config)

/-- Composition: `load_config` applied to the file written by `save_config`. -/
def roundTrip (config : AppConfig) : Except PyErr AppConfig :=
  match save_config config with
  | .error e => .error e
  | .ok raw => load_config (some raw)

/-! ## Filesystem model

The filesystem is an association list of file paths to contents plus a
list of existing directories.  Lookup takes the most recent entry. -/

/-- Filesystem state: files (path, content) and directories. -/
structure FSState where
  files : List (String × String)
  dirs : List String
deriving DecidableEq, Repr

/-- Content of the file at `p`, if it exists. -/
def getFile (fs : FSState) (p : String) : Option String :=
  (fs.files.find? (fun kv => kv.1 == p)).map (fun kv => kv.2)

/-- Create or overwrite the file at `p` with content `c`. -/
def setFile (fs : FSState) (p : String) (c : String) : FSState :=
  { fs with files := (p, c) :: fs.files.filter (fun kv => kv.1 ≠ p) }

/-- Record the existence of directory `d`. -/
def addDir (fs : FSState) (d : String) : FSState :=
  { fs with dirs := d :: fs.dirs }

/-- Whether path `p` lies under directory `tmp` (its name starts with
the characters of `tmp` followed by a slash). -/
def pathUnder (tmp p : String) : Bool :=
  List.isPrefixOf (tmp ++ "/").data p.data

/-- Deletion performed when a `tempfile.TemporaryDirectory` scope exits:
the directory `tmp` and every path under `tmp/` are removed. -/
def cleanupTmp (tmp : String) (fs : FSState) : FSState :=
  { files := fs.files.filter (fun kv => !(pathUnder tmp kv.1)),
    dirs := fs.dirs.filter (fun d => d ≠ tmp) }

/-! ## Media preparation (`media/audio.py`) -/

/-- A Python `pathlib.Path`, decomposed into the pieces the program
reads: the containing directory, the stem, and the suffix (extension,
dot included). -/
structure PyPath where
  dir : String
  stem : String
  suffix : String
deriving DecidableEq, Repr

/-- The string form of a path. -/
def PyPath.str (p : PyPath) : String :=
  p.dir ++ "/" ++ p.stem ++ p.suffix

/-- Predicate `is_supported_media`: the suffix, lowercased, is `.mp3` or `.mp4`. -/
def is_supported_media (path : PyPath) : Bool :=
  pyLower path.suffix = ".mp3" || pyLower path.suffix = ".mp4"

/-- Environment facts the media layer depends on: whether `ffmpeg` is on
PATH, and whether the conversion subprocess exits successfully. -/
structure MediaEnv where
  ffmpegOnPath : Bool
  ffmpegOk : Bool
deriving DecidableEq, Repr

/-- Observable external actions of `convert_to_wav`: resolving the
executable (`shutil.which`) and launching the subprocess. -/
inductive MediaEv where
  | exeLookup
  | procLaunch
deriving DecidableEq, Repr

/-- Function `find_ffmpeg`: the executable path, or `FfmpegNotFoundError`. -/
def find_ffmpeg (env : MediaEnv) : Except PyErr String :=
  if env.ffmpegOnPath then .ok "ffmpeg"
  else .error (.ffmpegNotFound
    "FFmpeg not found on PATH. Install FFmpeg and ensure `ffmpeg` is available.")

/-- Function `convert_to_wav`: reject unsupported extensions, resolve ffmpeg, run
the conversion; on success the output WAV file exists.  Also returns the
trace of external actions taken. -/
def convert_to_wav (env : MediaEnv) (input_path : PyPath) (output_wav : String)
    (fs : FSState) : Except PyErr Unit × List MediaEv × FSState :=
  if !(is_supported_media input_path) then
    (.error (.unsupportedMedia
      ("Unsupported input type: " ++ pyRepr input_path.suffix ++
       ". Supported: [\x27.mp3\x27, \x27.mp4\x27]")), [], fs)
  else
    match find_ffmpeg env with
    | .error e => (.error e, [.exeLookup], fs)
    | .ok _ =>
      if env.ffmpegOk then
        (.ok (), [.exeLookup, .procLaunch],
         setFile fs output_wav ("wav:" ++ input_path.str))
      else
        (.error (.ffmpegFailed "FFmpeg failed to process the file."),
         [.exeLookup, .procLaunch], fs)

/-- Context manager `prepared_audio`: allocate a temporary directory `tmp`, convert the
input into `tmp/audio.wav`, run the body on the WAV path, and delete the
temporary directory on every exit path (conversion failure, body
exception, or success), as `tempfile.TemporaryDirectory` does. -/
def prepared_audio (env : MediaEnv) (tmp : String) (input_path : PyPath)
    (body : String → FSState → Except PyErr String × FSState)
    (fs : FSState) : Except PyErr String × List MediaEv × FSState :=
  let fs1 := addDir fs tmp
  let wav := tmp ++ "/audio.wav"
  match convert_to_wav env input_path wav fs1 with
  | (.error e, tr, fs2) => (.error e, tr, cleanupTmp tmp fs2)
  | (.ok _, tr, fs2) =>
    let r := body wav fs2
    (r.1, tr, cleanupTmp tmp r.2)

/-! ## Engines (`engine/__init__.py`, `engine/faster_whisper.py`) -/

/-- The `text` attribute of a segment object, as `getattr(seg, "text", "")`
sees it: a string, a non-string value, or absent. -/
inductive SegAttr where
  | strA (s : String)
  | nonStr
  | missing

/-- One segment produced by the inference backend. -/
structure Segment where
  text : SegAttr

/-- The string `FasterWhisperEngine.transcribe` appends for a segment:
`getattr(seg, "text", "")` when it is a string (an absent attribute
defaults to the empty string), nothing otherwise. -/
def segText (seg : Segment) : Option String :=
  match seg.text with
  | .strA s => some s
  | .nonStr => none
  | .missing => some ""

/-- The text-assembly step of `FasterWhisperEngine.transcribe`: collect
string texts in emission order, join with no separator, strip, and
append one newline if the stripped result is non-empty. -/
def fwJoinSegments (segments : List Segment) : String :=
  let parts := segments.filterMap segText
  let joined := pyStrip (String.join parts)
  if joined = "" then "" else joined ++ "\n"

/-- Environment facts the engine depends on: whether the faster-whisper
library is importable, whether model construction succeeds, and the
segments inference emits for a given audio path (deterministic). -/
structure EngineEnv where
  libInstalled : Bool
  modelLoads : Bool
  segments : String → List Segment

/-- Method `FasterWhisperEngine.transcribe`: missing library raises
`ModuleNotFoundError`; failed model construction raises `RuntimeError`;
otherwise the joined segment text is returned. -/
def fwTranscribe (eenv : EngineEnv) (model : String) (audio_path : String) :
    Except PyErr String :=
  if !eenv.libInstalled then
    .error (.moduleNotFound
      "Missing dependency: faster-whisper. Install with `pip install -e .`.")
  else if !eenv.modelLoads then
    .error (.runtimeError
      ("Failed to load Whisper model \x27" ++ model ++
       "\x27. If you\x27re offline, ensure the model is already cached or set --model to a local model path."))
  else
    .ok (fwJoinSegments (eenv.segments audio_path))

/-- A constructed engine instance. -/
inductive Engine where
  | fasterWhisper (model device : String)
deriving DecidableEq, Repr

/-- Factory `create_engine`: normalize the backend (strip, lowercase), match the
known aliases, else `ValueError` naming the invalid value. -/
def create_engine (config : EngineConfig) : Except PyErr Engine :=
  let backend := pyLower (pyStrip config.backend)
  if backend ∈ ["faster-whisper", "faster_whisper", "whisper"] then
    .ok (.fasterWhisper config.model config.device)
  else
    .error (.valueError ("Unsupported engine backend: " ++ pyRepr config.backend))

/-- Dispatch `engine.transcribe(audio_path, language=None)`. -/
def engineTranscribe (eenv : EngineEnv) (engine : Engine) (audio_path : String) :
    Except PyErr String :=
  match engine with
  | .fasterWhisper model _device => fwTranscribe eenv model audio_path

/-! ## Text output (`output/text.py`) -/

/-- Function `write_text_file`: write `text` as the complete content of
`output_path`, overwriting (parent-directory creation is not tracked by
the filesystem model, which does not require parents to exist). -/
def write_text_file (output_path : String) (text : String) (fs : FSState) : FSState :=
  setFile fs output_path text

/-! ## Orchestration (`app/menu.py` `_run_transcription`, `app/cli.py` `run`) -/

/-- Structure `TranscribeRequest`: resolved parameters for one pipeline run. -/
structure TranscribeRequest where
  input_path : PyPath
  output_dir : String
  model : String
  device : String

/-- Environment for a pipeline run: media layer facts, engine facts, and
the name the temporary directory allocation yields. -/
structure Env where
  media : MediaEnv
  engine : EngineEnv
  tmpName : String

/-- Orchestrator `_run_transcription`: build the engine config with the fixed
`"faster-whisper"` backend, create the engine, prepare audio, transcribe
inside the scope, then write `<output_dir>/<stem>.txt` and return that
path. -/
def run_transcription (env : Env) (request : TranscribeRequest) (fs : FSState) :
    Except PyErr String × FSState :=
  let engine_config : EngineConfig :=
    { backend := "faster-whisper", model := request.model, device := request.device }
  match create_engine engine_config with
  | .error e => (.error e, fs)
  | .ok engine =>
    match prepared_audio env.media env.tmpName request.input_path
        (fun wav fsi => (engineTranscribe env.engine engine wav, fsi)) fs with
    | (.error e, _, fs2) => (.error e, fs2)
    | (.ok text, _, fs2) =>
      let output_path := request.output_dir ++ "/" ++ request.input_path.stem ++ ".txt"
      (.ok output_path, write_text_file output_path text fs2)

/-- Environment for the single-shot CLI command: pipeline environment
plus the parsed content of the config file (`none` = file absent). -/
structure CliEnv where
  media : MediaEnv
  engine : EngineEnv
  tmpName : String
  configRaw : Option (List (String × TomlV))

/-- The exit code the CLI's `except` chain assigns to an exception raised
inside the transcription `try` block: `MediaError` subtypes and
`ModuleNotFoundError` map to 2, everything else to the generic handler's 1. -/
def excCode (e : PyErr) : Nat :=
  match e with
  | .unsupportedMedia _ => 2
  | .ffmpegNotFound _ => 2
  | .ffmpegFailed _ => 2
  | .moduleNotFound _ => 2
  | .valueError _ => 1
  | .runtimeError _ => 1

/-- The `run` command of `app/cli.py`: load config (a `ValueError` there
exits 2), merge per-invocation model/device overrides via Python `or`,
then create the engine, prepare audio, transcribe, and write the output;
exceptions map to exit codes via `excCode`, success exits 0. -/
def cliRun (env : CliEnv) (input_file : PyPath)
    (out model device : Option String) (fs : FSState) : Nat × FSState :=
  match load_config env.configRaw with
  | .error _ => (2, fs)
  | .ok config =>
    let engine_config : EngineConfig :=
      { backend := config.engine.backend,
        model := pyOr model config.engine.model,
        device := pyOr device config.engine.device }
    let output_dir := out.getD input_file.dir
    let output_path := output_dir ++ "/" ++ input_file.stem ++ ".txt"
    match create_engine engine_config with
    | .error e => (excCode e, fs)
    | .ok engine =>
      match prepared_audio env.media env.tmpName input_file
          (fun wav fsi => (engineTranscribe env.engine engine wav, fsi)) fs with
      | (.error e, _, fs2) => (excCode e, fs2)
      | (.ok text, _, fs2) => (0, write_text_file output_path text fs2)

/-! ## Front-end merge helpers (`app/cli.py`, `app/menu.py`) -/

/-- The `EngineConfig` the CLI builds from the loaded config and the
optional `--model` / `--device` overrides. -/
def cliMergeEngineConfig (config : AppConfig) (model device : Option String) :
    EngineConfig :=
  { backend := config.engine.backend,
    model := pyOr model config.engine.model,
    device := pyOr device config.engine.device }

/-- The menu's field resolution: the stripped input value, or the
configured default when the stripped value is empty. -/
def menuResolveField (inputValue : String) (default : String) : String :=
  if pyStrip inputValue = "" then default else pyStrip inputValue

/-- The `EngineConfig` that `_run_transcription` builds from a request
assembled by the menu's transcribe form. -/
def menuEngineConfig (config : AppConfig) (modelInput deviceInput : String) :
    EngineConfig :=
  { backend := "faster-whisper",
    model := menuResolveField modelInput config.engine.model,
    device := menuResolveField deviceInput config.engine.device }

/-! ## Helper lemmas -/

/-- Segments whose `text` attribute is a string contribute exactly their
texts, in order. -/
lemma filterMap_segText_strA (ts : List String) :
    (ts.map (fun t => Segment.mk (SegAttr.strA t))).filterMap segText = ts := by
  induction ts with
  | nil => rfl
  | cons t ts ih => simp [List.filterMap_cons, segText, ih]

/-- Looking up a freshly written file returns its content. -/
lemma getFile_setFile (fs : FSState) (p c : String) :
    getFile (setFile fs p c) p = some c := by
  simp [getFile, setFile, List.find?]

/-- Lemma for association lists: after filtering out every entry whose key
satisfies `pred`, lookup of a key satisfying `pred` fails. -/
lemma find?_filter_pred_none (pred : String → Bool) (p : String) (hp : pred p = true)
    (l : List (String × String)) :
    (l.filter (fun kv => !(pred kv.1))).find? (fun kv => kv.1 == p) = none := by
  induction l with
  | nil => rfl
  | cons a l ih =>
    by_cases ha : pred a.1 = true
    · simp [List.filter_cons, ha, ih]
    · have hne : (a.1 == p) = false := by
        rcases he : a.1 == p with _ | _
        · rfl
        · exact absurd (by rw [eq_of_beq he]; exact hp) ha
      simp [List.filter_cons, ha, List.find?_cons, hne, ih]

/-- The WAV path allocated inside the temporary directory lies under it. -/
lemma pathUnder_wav (tmp : String) : pathUnder tmp (tmp ++ "/audio.wav") = true := by
  have h : (tmp ++ "/audio.wav") = (tmp ++ "/") ++ "audio.wav" := by
    simp [String.ext_iff]
  rw [pathUnder, h]
  have : (tmp ++ "/").data <+: ((tmp ++ "/") ++ "audio.wav").data := by
    refine ⟨"audio.wav".data, ?_⟩
    simp
  exact List.isPrefixOf_iff_prefix.mpr this

/-- After `cleanupTmp`, no file under the temporary directory remains. -/
lemma getFile_cleanupTmp (tmp p : String) (fs : FSState)
    (h : pathUnder tmp p = true) :
    getFile (cleanupTmp tmp fs) p = none := by
  simp [getFile, cleanupTmp, find?_filter_pred_none (pathUnder tmp) p h]

/-- After `cleanupTmp`, the temporary directory itself is gone. -/
lemma cleanupTmp_dirs (tmp : String) (fs : FSState) :
    tmp ∉ (cleanupTmp tmp fs).dirs := by
  simp [cleanupTmp]

/-! ## Claim theorems -/

/-- C8: when no configuration file exists at the resolved path,
`load_config` raises no error and returns the default configuration:
backend "faster-whisper", model "small", device "cpu", output extension
"txt". -/
theorem load_config_absent_defaults :
    load_config none =
      .ok { engine := { backend := "faster-whisper", model := "small", device := "cpu" },
            output := { extension := "txt" } } := rfl

/-- C1: `FasterWhisperEngine.transcribe` returns the concatenation of the
segments' text in emission order with no separator, stripped, with
exactly one trailing newline if the stripped result is non-empty and the
empty string otherwise; and with a stubbed engine emitting "Hello " and
"world.", the pipeline writes `<stem>.txt` containing exactly
"Hello world.\n". -/
theorem transcribe_joins_segments :
    (∀ ts : List String,
      fwJoinSegments (ts.map (fun t => Segment.mk (SegAttr.strA t))) =
        (if pyStrip (String.join ts) = "" then ""
         else pyStrip (String.join ts) ++ "\n"))
    ∧ (let env : Env :=
         { media := { ffmpegOnPath := true, ffmpegOk := true },
           engine := { libInstalled := true, modelLoads := true,
                       segments := fun _ =>
                         [Segment.mk (SegAttr.strA "Hello "),
                          Segment.mk (SegAttr.strA "world.")] },
           tmpName := "/tmp/transcriber-abc" }
       let request : TranscribeRequest :=
         { input_path := { dir := "/in", stem := "song", suffix := ".mp3" },
           output_dir := "/out", model := "small", device := "cpu" }
       (run_transcription env request { files := [], dirs := [] }).1 = .ok "/out/song.txt"
       ∧ getFile (run_transcription env request { files := [], dirs := [] }).2
           "/out/song.txt" = some "Hello world.\n") := by
  refine ⟨fun ts => ?_, ?_, ?_⟩
  · simp only [fwJoinSegments, filterMap_segText_strA]
  · rfl
  · rfl

/-- C5: `create_engine` trims and lowercases the backend field and returns
a `FasterWhisperEngine` built from the config's model and device exactly
when the normalized value is one of the known aliases; any other value
yields a configuration error naming the invalid backend value. -/
theorem create_engine_classifies (config : EngineConfig) :
    (pyLower (pyStrip config.backend) ∈
        (["faster-whisper", "faster_whisper", "whisper"] : List String) ↔
      create_engine config = .ok (.fasterWhisper config.model config.device))
    ∧ (pyLower (pyStrip config.backend) ∉
        (["faster-whisper", "faster_whisper", "whisper"] : List String) →
      create_engine config =
        .error (.valueError ("Unsupported engine backend: " ++ pyRepr config.backend))) := by
  by_cases h : pyLower (pyStrip config.backend) ∈
      (["faster-whisper", "faster_whisper", "whisper"] : List String)
  · constructor
    · simp [create_engine, h]
    · intro hn
      exact absurd h hn
  · constructor
    · simp [create_engine, h]
    · intro _
      simp [create_engine, h]

/-- Witness for C5: a padded, mixed-case alias is accepted; an unknown
backend is rejected with the message naming it. -/
theorem create_engine_classifies_witness :
    create_engine { backend := " Faster-Whisper ", model := "small", device := "cpu" } =
      .ok (.fasterWhisper "small" "cpu")
    ∧ create_engine { backend := "bogus", model := "small", device := "cpu" } =
      .error (.valueError ("Unsupported engine backend: " ++ pyRepr "bogus")) := by
  constructor
  · exact (create_engine_classifies
      { backend := " Faster-Whisper ", model := "small", device := "cpu" }).1.mp (by decide)
  · exact (create_engine_classifies
      { backend := "bogus", model := "small", device := "cpu" }).2 (by decide)

/-- C4: for an input path whose extension, compared case-insensitively, is
not `.mp3` or `.mp4`, `convert_to_wav` (and hence `prepared_audio`)
raises `UnsupportedMediaError` with an empty external-action trace — no
executable lookup and no subprocess launch; for `.mp3`/`.mp4` in any
case, `is_supported_media` returns true. -/
theorem unsupported_media_rejected_early (env : MediaEnv) (input_path : PyPath)
    (output_wav tmp : String)
    (body : String → FSState → Except PyErr String × FSState) (fs : FSState) :
    (pyLower input_path.suffix ≠ ".mp3" → pyLower input_path.suffix ≠ ".mp4" →
      (convert_to_wav env input_path output_wav fs =
        (.error (.unsupportedMedia
          ("Unsupported input type: " ++ pyRepr input_path.suffix ++
           ". Supported: [\x27.mp3\x27, \x27.mp4\x27]")), [], fs)
       ∧ (prepared_audio env tmp input_path body fs).1 =
          .error (.unsupportedMedia
            ("Unsupported input type: " ++ pyRepr input_path.suffix ++
             ". Supported: [\x27.mp3\x27, \x27.mp4\x27]"))
       ∧ (prepared_audio env tmp input_path body fs).2.1 = []))
    ∧ ((pyLower input_path.suffix = ".mp3" ∨ pyLower input_path.suffix = ".mp4") →
        is_supported_media input_path = true) := by
  constructor
  · intro h1 h2
    have hsup : is_supported_media input_path = false := by
      simp [is_supported_media, h1, h2]
    refine ⟨?_, ?_, ?_⟩ <;> simp [convert_to_wav, prepared_audio, hsup]
  · intro h
    rcases h with h | h <;> simp [is_supported_media, h]

/-- Witness for C4: a `.wav` input is rejected with no external action;
`.MP3` counts as supported. -/
theorem unsupported_media_rejected_early_witness :
    (convert_to_wav { ffmpegOnPath := true, ffmpegOk := true }
        { dir := "/in", stem := "clip", suffix := ".wav" }
        "/tmp/t/audio.wav" { files := [], dirs := [] } =
      (.error (.unsupportedMedia
        ("Unsupported input type: " ++ pyRepr ".wav" ++
         ". Supported: [\x27.mp3\x27, \x27.mp4\x27]")), [], { files := [], dirs := [] })
     ∧ (prepared_audio { ffmpegOnPath := true, ffmpegOk := true } "/tmp/t"
          { dir := "/in", stem := "clip", suffix := ".wav" }
          (fun _ fsi => (.ok "", fsi)) { files := [], dirs := [] }).1 =
        .error (.unsupportedMedia
          ("Unsupported input type: " ++ pyRepr ".wav" ++
           ". Supported: [\x27.mp3\x27, \x27.mp4\x27]"))
     ∧ (prepared_audio { ffmpegOnPath := true, ffmpegOk := true } "/tmp/t"
          { dir := "/in", stem := "clip", suffix := ".wav" }
          (fun _ fsi => (.ok "", fsi)) { files := [], dirs := [] }).2.1 = [])
    ∧ is_supported_media { dir := "/in", stem := "clip", suffix := ".MP3" } = true := by
  constructor
  · exact (unsupported_media_rejected_early
      { ffmpegOnPath := true, ffmpegOk := true }
      { dir := "/in", stem := "clip", suffix := ".wav" }
      "/tmp/t/audio.wav" "/tmp/t" (fun _ fsi => (.ok "", fsi))
      { files := [], dirs := [] }).1 (by decide) (by decide)
  · exact (unsupported_media_rejected_early
      { ffmpegOnPath := true, ffmpegOk := true }
      { dir := "/in", stem := "clip", suffix := ".MP3" }
      "/tmp/t/audio.wav" "/tmp/t" (fun _ fsi => (.ok "", fsi))
      { files := [], dirs := [] }).2 (Or.inl (by decide))

/-- C3: whenever the scope opened by `prepared_audio` exits — conversion
failure, body exception, or normal completion — the temporary directory
and the `audio.wav` file inside it are gone from the resulting
filesystem; and on the success path the yielded WAV path exists in the
state the body runs on. -/
theorem prepared_audio_scope_cleanup (env : MediaEnv) (tmp : String)
    (input_path : PyPath)
    (body : String → FSState → Except PyErr String × FSState) (fs : FSState) :
    tmp ∉ (prepared_audio env tmp input_path body fs).2.2.dirs
    ∧ getFile (prepared_audio env tmp input_path body fs).2.2 (tmp ++ "/audio.wav") = none
    ∧ (is_supported_media input_path = true → env.ffmpegOnPath = true →
       env.ffmpegOk = true →
        (getFile (setFile (addDir fs tmp) (tmp ++ "/audio.wav")
              ("wav:" ++ input_path.str)) (tmp ++ "/audio.wav") =
            some ("wav:" ++ input_path.str)
         ∧ prepared_audio env tmp input_path body fs =
            ((body (tmp ++ "/audio.wav")
                (setFile (addDir fs tmp) (tmp ++ "/audio.wav")
                  ("wav:" ++ input_path.str))).1,
             [MediaEv.exeLookup, MediaEv.procLaunch],
             cleanupTmp tmp
               (body (tmp ++ "/audio.wav")
                 (setFile (addDir fs tmp) (tmp ++ "/audio.wav")
                   ("wav:" ++ input_path.str))).2))) := by
  obtain ⟨X, hX⟩ : ∃ X, (prepared_audio env tmp input_path body fs).2.2 =
      cleanupTmp tmp X := by
    rcases hc : convert_to_wav env input_path (tmp ++ "/audio.wav") (addDir fs tmp)
      with ⟨r, tr, fs2⟩
    cases r with
    | error e => exact ⟨fs2, by simp [prepared_audio, hc]⟩
    | ok u => exact ⟨(body (tmp ++ "/audio.wav") fs2).2, by simp [prepared_audio, hc]⟩
  refine ⟨?_, ?_, ?_⟩
  · rw [hX]
    exact cleanupTmp_dirs tmp X
  · rw [hX]
    exact getFile_cleanupTmp tmp _ X (pathUnder_wav tmp)
  · intro hs hp hk
    have hconv : convert_to_wav env input_path (tmp ++ "/audio.wav") (addDir fs tmp) =
        (.ok (), [.exeLookup, .procLaunch],
         setFile (addDir fs tmp) (tmp ++ "/audio.wav") ("wav:" ++ input_path.str)) := by
      simp [convert_to_wav, find_ffmpeg, hs, hp, hk]
    exact ⟨getFile_setFile _ _ _, by simp [prepared_audio, hconv]⟩

/-- Witness for C3: with a reachable, succeeding transcoder and a body
that completes normally, the temp directory and WAV are gone afterwards,
and the WAV exists in the state the body receives. -/
theorem prepared_audio_scope_cleanup_witness :
    "/tmp/t" ∉ (prepared_audio { ffmpegOnPath := true, ffmpegOk := true } "/tmp/t"
        { dir := "/in", stem := "song", suffix := ".mp3" }
        (fun _ fsi => (.ok "text", fsi)) { files := [], dirs := [] }).2.2.dirs
    ∧ getFile (prepared_audio { ffmpegOnPath := true, ffmpegOk := true } "/tmp/t"
        { dir := "/in", stem := "song", suffix := ".mp3" }
        (fun _ fsi => (.ok "text", fsi)) { files := [], dirs := [] }).2.2
        "/tmp/t/audio.wav" = none
    ∧ getFile (setFile (addDir { files := [], dirs := [] } "/tmp/t") "/tmp/t/audio.wav"
        ("wav:" ++ PyPath.str { dir := "/in", stem := "song", suffix := ".mp3" }))
        "/tmp/t/audio.wav" =
      some ("wav:" ++ PyPath.str { dir := "/in", stem := "song", suffix := ".mp3" }) := by
  refine ⟨(prepared_audio_scope_cleanup { ffmpegOnPath := true, ffmpegOk := true } "/tmp/t"
      { dir := "/in", stem := "song", suffix := ".mp3" }
      (fun _ fsi => (.ok "text", fsi)) { files := [], dirs := [] }).1,
    (prepared_audio_scope_cleanup { ffmpegOnPath := true, ffmpegOk := true } "/tmp/t"
      { dir := "/in", stem := "song", suffix := ".mp3" }
      (fun _ fsi => (.ok "text", fsi)) { files := [], dirs := [] }).2.1,
    ((prepared_audio_scope_cleanup { ffmpegOnPath := true, ffmpegOk := true } "/tmp/t"
      { dir := "/in", stem := "song", suffix := ".mp3" }
      (fun _ fsi => (.ok "text", fsi)) { files := [], dirs := [] }).2.2
      (by decide) rfl rfl).1⟩

/-- C6: loading a configuration whose [output] extension differs from
"txt" case-insensitively fails with a validation error whose message
contains "Only plain text output"; when it equals "txt" in any case,
loading succeeds and the resulting output extension is "txt". -/
theorem load_config_extension_validation (raw engineRaw outputRaw : List (String × TomlV))
    (b m d ext : String)
    (hEng : _get_table raw "engine" = .ok engineRaw)
    (hOut : _get_table raw "output" = .ok outputRaw)
    (hB : _get_str engineRaw "backend" "faster-whisper" = .ok b)
    (hM : _get_str engineRaw "model" "small" = .ok m)
    (hD : _get_str engineRaw "device" "cpu" = .ok d)
    (hExt : rawGet outputRaw "extension" = some (.str ext))
    (hne : pyStrip ext ≠ "") :
    (pyLower (pyStrip ext) ≠ "txt" →
      load_config (some raw) = .error (.valueError
        "Only plain text output is supported: set [output].extension = \x27txt\x27.")
      ∧ strContains
          "Only plain text output is supported: set [output].extension = \x27txt\x27."
          "Only plain text output" = true)
    ∧ (pyLower (pyStrip ext) = "txt" →
      load_config (some raw) =
        .ok { engine := { backend := b, model := m, device := d },
              output := { extension := "txt" } }) := by
  have hE : _get_str outputRaw "extension" "txt" = .ok (pyStrip ext) := by
    simp [_get_str, hExt, hne]
  constructor
  · intro hlow
    refine ⟨?_, by decide⟩
    simp [load_config, hEng, hOut, hB, hM, hD, hE, hlow]
  · intro hlow
    simp [load_config, hEng, hOut, hB, hM, hD, hE, hlow]

/-- Witness for C6: an "srt" extension fails with the "Only plain text
output" message; a mixed-case "TXT" succeeds with extension "txt". -/
theorem load_config_extension_validation_witness :
    (load_config (some [("output", TomlV.table [("extension", TomlV.str "srt")])]) =
      .error (.valueError
        "Only plain text output is supported: set [output].extension = \x27txt\x27.")
     ∧ strContains
         "Only plain text output is supported: set [output].extension = \x27txt\x27."
         "Only plain text output" = true)
    ∧ load_config (some [("output", TomlV.table [("extension", TomlV.str "TXT")])]) =
      .ok { engine := { backend := "faster-whisper", model := "small", device := "cpu" },
            output := { extension := "txt" } } := by
  constructor
  · exact (load_config_extension_validation
      [("output", TomlV.table [("extension", TomlV.str "srt")])]
      [] [("extension", TomlV.str "srt")]
      "faster-whisper" "small" "cpu" "srt"
      rfl rfl rfl rfl rfl rfl (by decide)).1 (by decide)
  · exact (load_config_extension_validation
      [("output", TomlV.table [("extension", TomlV.str "TXT")])]
      [] [("extension", TomlV.str "TXT")]
      "faster-whisper" "small" "cpu" "TXT"
      rfl rfl rfl rfl rfl rfl (by decide)).2 (by decide)

/-- Lemma: a successful `_get_str` with a non-empty default yields a
non-empty string (the default, or a value non-empty after stripping). -/
lemma _get_str_ok_ne (raw : List (String × TomlV)) (key d s : String)
    (hd : d ≠ "") (h : _get_str raw key d = .ok s) : s ≠ "" := by
  unfold _get_str at h
  rcases hr : rawGet raw key with _ | v <;> rw [hr] at h
  · simp only [Except.ok.injEq] at h
    subst h
    exact hd
  · cases v with
    | str v =>
      by_cases hv : pyStrip v = ""
      · simp [hv] at h
      · simp [hv] at h
        subst h
        exact hv
    | table t => simp at h
    | other => simp at h

/-- Lemma: every configuration `load_config` returns has non-empty engine
fields. -/
lemma load_config_ok_nonempty (raw? : Option (List (String × TomlV)))
    (config : AppConfig) (h : load_config raw? = .ok config) :
    config.engine.backend ≠ "" ∧ config.engine.model ≠ "" ∧
    config.engine.device ≠ "" := by
  cases raw? with
  | none =>
    simp only [load_config, Except.ok.injEq] at h
    subst h
    refine ⟨by decide, by decide, by decide⟩
  | some raw =>
    simp only [load_config] at h
    split at h
    · simp at h
    rename_i engineRaw hEng
    split at h
    · simp at h
    rename_i outputRaw hOut
    split at h
    · simp at h
    rename_i backend hB
    split at h
    · simp at h
    rename_i model hM
    split at h
    · simp at h
    rename_i device hD
    split at h
    · simp at h
    rename_i extension hE
    split at h
    · simp at h
    · simp only [Except.ok.injEq] at h
      subst h
      exact ⟨_get_str_ok_ne _ _ _ _ (by decide) hB,
             _get_str_ok_ne _ _ _ _ (by decide) hM,
             _get_str_ok_ne _ _ _ _ (by decide) hD⟩

/-- Lemma: Python `override or default` preserves non-emptiness of the
default. -/
lemma pyOr_ne (o : Option String) (d : String) (hd : d ≠ "") : pyOr o d ≠ "" := by
  cases o with
  | none => exact hd
  | some s =>
    by_cases hs : s = ""
    · simpa [pyOr, hs] using hd
    · simp [pyOr, hs]

/-- Lemma: the menu's strip-or-default resolution preserves non-emptiness
of the default. -/
lemma menuResolveField_ne (v d : String) (hd : d ≠ "") :
    menuResolveField v d ≠ "" := by
  by_cases hv : pyStrip v = ""
  · simpa [menuResolveField, hv] using hd
  · simp [menuResolveField, hv]

/-- C7: every `EngineConfig` the program constructs has non-empty
backend, model and device: the defaults, every configuration
`load_config` returns, the CLI's override merge, and the menu's
request construction all preserve the invariant. -/
theorem engine_config_fields_nonempty :
    (({} : EngineConfig).backend ≠ "" ∧ ({} : EngineConfig).model ≠ "" ∧
     ({} : EngineConfig).device ≠ "")
    ∧ (∀ raw? config, load_config raw? = .ok config →
        config.engine.backend ≠ "" ∧ config.engine.model ≠ "" ∧
        config.engine.device ≠ "")
    ∧ (∀ (config : AppConfig) (model device : Option String),
        config.engine.backend ≠ "" → config.engine.model ≠ "" →
        config.engine.device ≠ "" →
        (cliMergeEngineConfig config model device).backend ≠ "" ∧
        (cliMergeEngineConfig config model device).model ≠ "" ∧
        (cliMergeEngineConfig config model device).device ≠ "")
    ∧ (∀ (config : AppConfig) (modelInput deviceInput : String),
        config.engine.model ≠ "" → config.engine.device ≠ "" →
        (menuEngineConfig config modelInput deviceInput).backend ≠ "" ∧
        (menuEngineConfig config modelInput deviceInput).model ≠ "" ∧
        (menuEngineConfig config modelInput deviceInput).device ≠ "") := by
  refine ⟨⟨by decide, by decide, by decide⟩,
          fun raw? config h => load_config_ok_nonempty raw? config h,
          fun config model device hb hm hd =>
            ⟨hb, pyOr_ne model _ hm, pyOr_ne device _ hd⟩,
          fun config modelInput deviceInput hm hd =>
            ⟨(by decide : ("faster-whisper" : String) ≠ ""),
             menuResolveField_ne modelInput _ hm,
             menuResolveField_ne deviceInput _ hd⟩⟩

/-- Witness for C7: the invariant at concrete construction sites — the
defaults via `load_config`, a CLI merge with an empty-string override
(falsy, so the default survives), and a menu request with a blank model
input. -/
theorem engine_config_fields_nonempty_witness :
    (({} : AppConfig).engine.backend ≠ "" ∧ ({} : AppConfig).engine.model ≠ "" ∧
     ({} : AppConfig).engine.device ≠ "")
    ∧ ((cliMergeEngineConfig {} (some "") none).backend ≠ "" ∧
       (cliMergeEngineConfig {} (some "") none).model ≠ "" ∧
       (cliMergeEngineConfig {} (some "") none).device ≠ "")
    ∧ ((menuEngineConfig {} "   " "cuda").backend ≠ "" ∧
       (menuEngineConfig {} "   " "cuda").model ≠ "" ∧
       (menuEngineConfig {} "   " "cuda").device ≠ "") := by
  refine ⟨engine_config_fields_nonempty.2.1 none {} rfl,
          engine_config_fields_nonempty.2.2.1 {} (some "") none
            (by decide) (by decide) (by decide),
          engine_config_fields_nonempty.2.2.2 {} "   " "cuda"
            (by decide) (by decide)⟩

/-- Lemma: the factory accepts the fixed `"faster-whisper"` backend. -/
lemma create_engine_fw (m d : String) :
    create_engine { backend := "faster-whisper", model := m, device := d } =
      .ok (.fasterWhisper m d) := rfl

/-- Lemma: on a successful run (supported input, transcoder present and
succeeding, library installed, model loading), `_run_transcription`
returns the output path and writes the joined text there, with the
temporary directory cleaned up first. -/
lemma run_transcription_success (env : Env) (request : TranscribeRequest)
    (fs : FSState)
    (hs : is_supported_media request.input_path = true)
    (hp : env.media.ffmpegOnPath = true) (hk : env.media.ffmpegOk = true)
    (hl : env.engine.libInstalled = true) (hm : env.engine.modelLoads = true) :
    run_transcription env request fs =
      (.ok (request.output_dir ++ "/" ++ request.input_path.stem ++ ".txt"),
       write_text_file (request.output_dir ++ "/" ++ request.input_path.stem ++ ".txt")
         (fwJoinSegments (env.engine.segments (env.tmpName ++ "/audio.wav")))
         (cleanupTmp env.tmpName
           (setFile (addDir fs env.tmpName) (env.tmpName ++ "/audio.wav")
             ("wav:" ++ request.input_path.str)))) := by
  have hconv : convert_to_wav env.media request.input_path
      (env.tmpName ++ "/audio.wav") (addDir fs env.tmpName) =
      (.ok (), [.exeLookup, .procLaunch],
       setFile (addDir fs env.tmpName) (env.tmpName ++ "/audio.wav")
         ("wav:" ++ request.input_path.str)) := by
    simp [convert_to_wav, find_ffmpeg, hs, hp, hk]
  simp [run_transcription, create_engine_fw, prepared_audio, hconv,
        engineTranscribe, fwTranscribe, hl, hm]

/-- C9: with a deterministic engine, running the pipeline twice on the
same input and configuration produces the same output path, and both
runs leave the same content — the joined transcript — at that path; the
second run overwrites the first with byte-identical content. -/
theorem pipeline_idempotent (env : Env) (request : TranscribeRequest) (fs : FSState)
    (hs : is_supported_media request.input_path = true)
    (hp : env.media.ffmpegOnPath = true) (hk : env.media.ffmpegOk = true)
    (hl : env.engine.libInstalled = true) (hm : env.engine.modelLoads = true) :
    (run_transcription env request fs).1 =
      .ok (request.output_dir ++ "/" ++ request.input_path.stem ++ ".txt")
    ∧ (run_transcription env request (run_transcription env request fs).2).1 =
      .ok (request.output_dir ++ "/" ++ request.input_path.stem ++ ".txt")
    ∧ getFile (run_transcription env request fs).2
        (request.output_dir ++ "/" ++ request.input_path.stem ++ ".txt") =
      some (fwJoinSegments (env.engine.segments (env.tmpName ++ "/audio.wav")))
    ∧ getFile (run_transcription env request (run_transcription env request fs).2).2
        (request.output_dir ++ "/" ++ request.input_path.stem ++ ".txt") =
      some (fwJoinSegments (env.engine.segments (env.tmpName ++ "/audio.wav"))) := by
  have h1 := run_transcription_success env request fs hs hp hk hl hm
  have h2 := run_transcription_success env request
    (write_text_file (request.output_dir ++ "/" ++ request.input_path.stem ++ ".txt")
      (fwJoinSegments (env.engine.segments (env.tmpName ++ "/audio.wav")))
      (cleanupTmp env.tmpName
        (setFile (addDir fs env.tmpName) (env.tmpName ++ "/audio.wav")
          ("wav:" ++ request.input_path.str)))) hs hp hk hl hm
  simp only [write_text_file] at h1 h2
  refine ⟨?_, ?_, ?_, ?_⟩ <;>
    simp [h1, h2, write_text_file, getFile_setFile]

/-- Witness for C9: a concrete successful double run. -/
theorem pipeline_idempotent_witness :
    (run_transcription
      { media := { ffmpegOnPath := true, ffmpegOk := true },
        engine := { libInstalled := true, modelLoads := true,
                    segments := fun _ => [Segment.mk (SegAttr.strA "hi")] },
        tmpName := "/tmp/t" }
      { input_path := { dir := "/in", stem := "song", suffix := ".mp3" },
        output_dir := "/out", model := "small", device := "cpu" }
      { files := [], dirs := [] }).1 = .ok "/out/song.txt"
    ∧ getFile (run_transcription
      { media := { ffmpegOnPath := true, ffmpegOk := true },
        engine := { libInstalled := true, modelLoads := true,
                    segments := fun _ => [Segment.mk (SegAttr.strA "hi")] },
        tmpName := "/tmp/t" }
      { input_path := { dir := "/in", stem := "song", suffix := ".mp3" },
        output_dir := "/out", model := "small", device := "cpu" }
      (run_transcription
        { media := { ffmpegOnPath := true, ffmpegOk := true },
          engine := { libInstalled := true, modelLoads := true,
                      segments := fun _ => [Segment.mk (SegAttr.strA "hi")] },
          tmpName := "/tmp/t" }
        { input_path := { dir := "/in", stem := "song", suffix := ".mp3" },
          output_dir := "/out", model := "small", device := "cpu" }
        { files := [], dirs := [] }).2).2 "/out/song.txt" =
      some (fwJoinSegments
        [Segment.mk (SegAttr.strA "hi")]) := by
  have h := pipeline_idempotent
    { media := { ffmpegOnPath := true, ffmpegOk := true },
      engine := { libInstalled := true, modelLoads := true,
                  segments := fun _ => [Segment.mk (SegAttr.strA "hi")] },
      tmpName := "/tmp/t" }
    { input_path := { dir := "/in", stem := "song", suffix := ".mp3" },
      output_dir := "/out", model := "small", device := "cpu" }
    { files := [], dirs := [] } (by decide) rfl rfl rfl rfl
  exact ⟨h.1, h.2.2.2⟩

/-- C2 counterexample: with a configuration file naming an unsupported
backend ("bogus"), the single-shot command exits with code 1 — the
`ValueError` raised by `create_engine` is caught by the generic
`except Exception` handler, not mapped to the configuration-error
exit code 2. -/
theorem cli_backend_exit_counterexample :
    (cliRun { media := { ffmpegOnPath := true, ffmpegOk := true },
              engine := { libInstalled := true, modelLoads := true,
                          segments := fun _ => [] },
              tmpName := "/tmp/t",
              configRaw := some [("engine", TomlV.table [("backend", TomlV.str "bogus")])] }
       { dir := "/in", stem := "song", suffix := ".mp3" } none none none
       { files := [], dirs := [] }).1 = 1
    ∧ (cliRun { media := { ffmpegOnPath := true, ffmpegOk := true },
                engine := { libInstalled := true, modelLoads := true,
                            segments := fun _ => [] },
                tmpName := "/tmp/t",
                configRaw := some [("engine", TomlV.table [("backend", TomlV.str "bogus")])] }
       { dir := "/in", stem := "song", suffix := ".mp3" } none none none
       { files := [], dirs := [] }).1 ≠ 2 := by
  constructor
  · rfl
  · decide

/-- C2 (amended): the single-shot command exits 0 on success, 2 on a
configuration-file validation failure, 2 on media errors
(UnsupportedMediaError, FfmpegNotFoundError, FfmpegFailedError) and on a
missing inference library, and 1 on unclassified runtime errors — which
include both a model-load failure and the `ValueError` raised for an
unsupported backend identifier, since the latter reaches the generic
handler rather than the configuration-error path. -/
theorem cli_exit_codes (env : CliEnv) (input_file : PyPath)
    (out model device : Option String) (fs : FSState) :
    (∀ e, load_config env.configRaw = .error e →
        (cliRun env input_file out model device fs).1 = 2)
    ∧ (∀ config, load_config env.configRaw = .ok config →
        (pyLower (pyStrip config.engine.backend) ∉
            (["faster-whisper", "faster_whisper", "whisper"] : List String) →
          (cliRun env input_file out model device fs).1 = 1)
        ∧ (pyLower (pyStrip config.engine.backend) ∈
            (["faster-whisper", "faster_whisper", "whisper"] : List String) →
          (is_supported_media input_file = false →
              (cliRun env input_file out model device fs).1 = 2)
          ∧ (is_supported_media input_file = true →
             env.media.ffmpegOnPath = false →
              (cliRun env input_file out model device fs).1 = 2)
          ∧ (is_supported_media input_file = true →
             env.media.ffmpegOnPath = true → env.media.ffmpegOk = false →
              (cliRun env input_file out model device fs).1 = 2)
          ∧ (is_supported_media input_file = true →
             env.media.ffmpegOnPath = true → env.media.ffmpegOk = true →
             env.engine.libInstalled = false →
              (cliRun env input_file out model device fs).1 = 2)
          ∧ (is_supported_media input_file = true →
             env.media.ffmpegOnPath = true → env.media.ffmpegOk = true →
             env.engine.libInstalled = true → env.engine.modelLoads = false →
              (cliRun env input_file out model device fs).1 = 1)
          ∧ (is_supported_media input_file = true →
             env.media.ffmpegOnPath = true → env.media.ffmpegOk = true →
             env.engine.libInstalled = true → env.engine.modelLoads = true →
              (cliRun env input_file out model device fs).1 = 0))) := by
  constructor
  · intro e he
    simp [cliRun, he]
  · intro config hc
    constructor
    · intro hmem
      simp [cliRun, hc, create_engine, hmem, excCode]
    · intro hmem
      have hok : create_engine
          { backend := config.engine.backend,
            model := pyOr model config.engine.model,
            device := pyOr device config.engine.device } =
          .ok (.fasterWhisper (pyOr model config.engine.model)
            (pyOr device config.engine.device)) := by
        simp [create_engine, hmem]
      refine ⟨?_, ?_, ?_, ?_, ?_, ?_⟩
      · intro hsup
        simp [cliRun, hc, hok, prepared_audio, convert_to_wav, hsup, excCode]
      · intro hsup hffp
        simp [cliRun, hc, hok, prepared_audio, convert_to_wav, find_ffmpeg,
              hsup, hffp, excCode]
      · intro hsup hffp hffk
        simp [cliRun, hc, hok, prepared_audio, convert_to_wav, find_ffmpeg,
              hsup, hffp, hffk, excCode]
      · intro hsup hffp hffk hlib
        simp [cliRun, hc, hok, prepared_audio, convert_to_wav, find_ffmpeg,
              engineTranscribe, fwTranscribe, hsup, hffp, hffk, hlib, excCode]
      · intro hsup hffp hffk hlib hmod
        simp [cliRun, hc, hok, prepared_audio, convert_to_wav, find_ffmpeg,
              engineTranscribe, fwTranscribe, hsup, hffp, hffk, hlib, hmod, excCode]
      · intro hsup hffp hffk hlib hmod
        simp [cliRun, hc, hok, prepared_audio, convert_to_wav, find_ffmpeg,
              engineTranscribe, fwTranscribe, hsup, hffp, hffk, hlib, hmod, excCode]

/-- Witness for C2 (amended): a fully successful run exits 0; a config
file with a bad output extension exits 2. -/
theorem cli_exit_codes_witness :
    (cliRun { media := { ffmpegOnPath := true, ffmpegOk := true },
              engine := { libInstalled := true, modelLoads := true,
                          segments := fun _ => [Segment.mk (SegAttr.strA "hi")] },
              tmpName := "/tmp/t", configRaw := none }
       { dir := "/in", stem := "song", suffix := ".mp3" } none none none
       { files := [], dirs := [] }).1 = 0
    ∧ (cliRun { media := { ffmpegOnPath := true, ffmpegOk := true },
                engine := { libInstalled := true, modelLoads := true,
                            segments := fun _ => [Segment.mk (SegAttr.strA "hi")] },
                tmpName := "/tmp/t",
                configRaw := some [("output", TomlV.table [("extension", TomlV.str "srt")])] }
       { dir := "/in", stem := "song", suffix := ".mp3" } none none none
       { files := [], dirs := [] }).1 = 2 := by
  constructor
  · exact (((cli_exit_codes
      { media := { ffmpegOnPath := true, ffmpegOk := true },
        engine := { libInstalled := true, modelLoads := true,
                    segments := fun _ => [Segment.mk (SegAttr.strA "hi")] },
        tmpName := "/tmp/t", configRaw := none }
      { dir := "/in", stem := "song", suffix := ".mp3" } none none none
      { files := [], dirs := [] }).2 {} rfl).2 (by decide)).2.2.2.2.2
      (by decide) rfl rfl rfl rfl
  · exact (cli_exit_codes
      { media := { ffmpegOnPath := true, ffmpegOk := true },
        engine := { libInstalled := true, modelLoads := true,
                    segments := fun _ => [Segment.mk (SegAttr.strA "hi")] },
        tmpName := "/tmp/t",
        configRaw := some [("output", TomlV.table [("extension", TomlV.str "srt")])] }
      { dir := "/in", stem := "song", suffix := ".mp3" } none none none
      { files := [], dirs := [] }).1
      (.valueError "Only plain text output is supported: set [output].extension = \x27txt\x27.")
      rfl

/-- C10 counterexample: a model value that is not trim-invariant does not
round-trip verbatim — saving `" small "` and loading yields `"small"`
(the loader strips string fields), so model does not round-trip to its
saved value. -/
theorem save_load_roundtrip_counterexample :
    (roundTrip { engine := { backend := "faster-whisper", model := " small ",
                             device := "cpu" },
                 output := { extension := "txt" } }).toOption.map
        (fun a => a.engine.model) = some "small"
    ∧ (roundTrip { engine := { backend := "faster-whisper", model := " small ",
                               device := "cpu" },
                   output := { extension := "txt" } }).toOption.map
        (fun a => a.engine.model) ≠ some " small " := by
  constructor
  · rfl
  · decide

/-- C10 (amended): `save_config` serializes only model, device and
extension — never backend — so for every saveable configuration (valid
extension, model and device non-empty after trimming and TOML-safe),
`load_config` after `save_config` returns the default backend
"faster-whisper" regardless of the saved backend, while model and device
round-trip to their trimmed saved values. -/
theorem save_load_drops_backend (c : AppConfig)
    (hext : pyLower c.output.extension = "txt")
    (hm : pyStrip c.engine.model ≠ "") (hd : pyStrip c.engine.device ≠ "")
    (_hms : tomlSafe c.engine.model = true) (_hds : tomlSafe c.engine.device = true) :
    roundTrip c =
      .ok { engine := { backend := "faster-whisper",
                        model := pyStrip c.engine.model,
                        device := pyStrip c.engine.device },
            output := { extension := "txt" } } := by
  have hsave : save_config c = .ok (_to_toml_parsed c) := by
    simp [save_config, hext]
  have hEng : _get_table (_to_toml_parsed c) "engine" =
      .ok [("model", .str c.engine.model), ("device", .str c.engine.device)] := rfl
  have hOut : _get_table (_to_toml_parsed c) "output" =
      .ok [("extension", .str "txt")] := rfl
  have hB : _get_str [("model", TomlV.str c.engine.model),
      ("device", TomlV.str c.engine.device)] "backend" "faster-whisper" =
      .ok "faster-whisper" := rfl
  have hMg : rawGet [("model", TomlV.str c.engine.model),
      ("device", TomlV.str c.engine.device)] "model" =
      some (.str c.engine.model) := rfl
  have hM : _get_str [("model", TomlV.str c.engine.model),
      ("device", TomlV.str c.engine.device)] "model" "small" =
      .ok (pyStrip c.engine.model) := by
    simp [_get_str, hMg, hm]
  have hDg : rawGet [("model", TomlV.str c.engine.model),
      ("device", TomlV.str c.engine.device)] "device" =
      some (.str c.engine.device) := rfl
  have hD : _get_str [("model", TomlV.str c.engine.model),
      ("device", TomlV.str c.engine.device)] "device" "cpu" =
      .ok (pyStrip c.engine.device) := by
    simp [_get_str, hDg, hd]
  have hE : _get_str [("extension", TomlV.str "txt")] "extension" "txt" =
      .ok "txt" := rfl
  simp [roundTrip, hsave, load_config, hEng, hOut, hB, hM, hD, hE,
        show pyLower "txt" = "txt" from rfl]

/-- Witness for C10 (amended): a configuration with a custom backend and
padded device round-trips to the default backend and the trimmed
device. -/
theorem save_load_drops_backend_witness :
    roundTrip { engine := { backend := "whisper", model := "large",
                            device := " cuda " },
                output := { extension := "TXT" } } =
      .ok { engine := { backend := "faster-whisper", model := "large",
                        device := "cuda" },
            output := { extension := "txt" } } := by
  have h := save_load_drops_backend
    { engine := { backend := "whisper", model := "large", device := " cuda " },
      output := { extension := "TXT" } }
    (by decide) (by decide) (by decide) (by decide) (by decide)
  exact h

end Transcriber
